import Mathlib

/- Shallow embedding of the artbot-control-hub fleet-coordination control plane.

   Conventions used throughout:
   * Python dicts are modelled as association lists (first-match lookup);
     dict assignment replaces the value in place or appends a new key.
   * datetime.utcnow() is modelled by an explicit `now : Int` parameter
     (seconds); datetime comparisons become Int comparisons.
   * uuid4 command ids are modelled as externally supplied Nat values.
   * Numeric telemetry (battery %, CPU %, temperature, ...) is modelled in ℚ.
   * A fallible call returns `Except String _` (raise) or `Bool` (status),
     exactly as the Python function does.
   * Awaited transport sends are modelled by their Boolean outcome, threaded
     through the connection-manager state. -/

namespace ArtbotHub

/- Association-list primitives standing in for Python dict operations. -/

def dlookup {α β : Type} [DecidableEq α] : List (α × β) → α → Option β
  | [], _ => none
  | (k, v) :: t, k2 => if k2 = k then some v else dlookup t k2

def dinsert {α β : Type} [DecidableEq α] : List (α × β) → α → β → List (α × β)
  | [], k, v => [(k, v)]
  | (k2, v2) :: t, k, v => if k = k2 then (k, v) :: t else (k2, v2) :: dinsert t k v

def derase {α β : Type} [DecidableEq α] : List (α × β) → α → List (α × β)
  | [], _ => []
  | (k2, v2) :: t, k => if k = k2 then t else (k2, v2) :: derase t k

def updateFirst {α : Type} (p : α → Bool) (f : α → α) : List α → List α
  | [] => []
  | x :: t => if p x then f x :: t else x :: updateFirst p f t

/- Python truthiness for the `if error:` / `if response_data:` guards. -/
def strTruthy : Option String → Bool
  | none => false
  | some s => !(s == "")

def respTruthy : Option (List (String × String)) → Bool
  | none => false
  | some l => !l.isEmpty

/- Model of src/backend/app/services/command_service.py.

   A command record is the dict built in send_command_to_robot, with the
   optional keys (error, completed_at, response) that later mutations add. -/

structure CommandRecord where
  command_id : Nat
  robot_id : String
  action : String
  parameters : List (String × String)
  timestamp : Int
  status : String
  error : Option String
  completed_at : Option Int
  response : Option (List (String × String))
  deriving DecidableEq, Repr

structure CommandServiceState where
  command_history : List (String × List CommandRecord)
  pending_commands : List (Nat × CommandRecord)
  deriving DecidableEq, Repr

def initCommandServiceState : CommandServiceState :=
  { command_history := [], pending_commands := [] }

/- CommandService._update_command_status: update the (first) matching history
   entry of the record's robot and the pending copy.  The history entry gets
   status, completed_at and (if truthy) response/error; the pending copy gets
   only status and (if truthy) error. -/
def update_command_status (now : Int) (command_id : Nat) (status : String)
    (response_data : Option (List (String × String))) (error : Option String)
    (st : CommandServiceState) : CommandServiceState :=
  match dlookup st.pending_commands command_id with
  | none => st
  | some cmd =>
    let robot_id := cmd.robot_id
    let history2 :=
      match dlookup st.command_history robot_id with
      | none => st.command_history
      | some hist =>
        dinsert st.command_history robot_id
          (updateFirst (fun c => c.command_id == command_id)
            (fun c =>
              { c with
                status := status
                completed_at := some now
                response := if respTruthy response_data then response_data else c.response
                error := if strTruthy error then error else c.error })
            hist)
    let pending2 :=
      dinsert st.pending_commands command_id
        { cmd with
          status := status
          error := if strTruthy error then error else cmd.error }
    { command_history := history2, pending_commands := pending2 }

/- CommandService.send_command_to_robot with the awaited
   websocket_manager.send_to_agent outcome factored out as `success`.
   The returned record is the local command_data dict (built with status
   "pending"); the stored copies are what _update_command_status mutates. -/
def send_command_core (now : Int) (command_id : Nat) (robot_id action : String)
    (parameters : List (String × String)) (success : Bool)
    (st : CommandServiceState) : Except String CommandRecord × CommandServiceState :=
  let command_data : CommandRecord :=
    { command_id := command_id
      robot_id := robot_id
      action := action
      parameters := parameters
      timestamp := now
      status := "pending"
      error := none
      completed_at := none
      response := none }
  let hist0 := (dlookup st.command_history robot_id).getD []
  let st1 : CommandServiceState :=
    { command_history := dinsert st.command_history robot_id (hist0 ++ [command_data])
      pending_commands := dinsert st.pending_commands command_id command_data }
  if success then
    (Except.ok command_data, update_command_status now command_id "sent" none none st1)
  else
    (Except.error ("Failed to send command to robot " ++ robot_id),
      update_command_status now command_id "failed" none (some "WebSocket send failed") st1)

/- CommandService.handle_command_response. -/
def handle_command_response (now : Int) (command_id : Nat)
    (response_data : List (String × String)) (st : CommandServiceState) :
    CommandServiceState :=
  match dlookup st.pending_commands command_id with
  | none => st
  | some _ =>
    let status := (dlookup response_data "status").getD "completed"
    let error := dlookup response_data "error"
    let st2 := update_command_status now command_id status (some response_data) error st
    if status == "completed" || status == "failed" then
      { st2 with pending_commands := derase st2.pending_commands command_id }
    else
      st2

/- CommandService.cancel_command. -/
def cancel_command (now : Int) (command_id : Nat) (st : CommandServiceState) :
    Bool × CommandServiceState :=
  match dlookup st.pending_commands command_id with
  | some _ =>
    let st2 := update_command_status now command_id "cancelled" none none st
    (true, { st2 with pending_commands := derase st2.pending_commands command_id })
  | none => (false, st)

/- Model of src/backend/app/services/websocket_manager.py (the parts the
   command path uses).  A connection is a handle paired with whether a
   send_text on it succeeds; a failing send raises, which prunes the handle. -/

structure ConnectionManagerState where
  active_connections : List (String × List (Nat × Bool))
  deriving DecidableEq, Repr

def removeConn (conns : List (Nat × Bool)) (h : Nat) : List (Nat × Bool) :=
  match conns with
  | [] => []
  | (h2, a) :: t => if h2 = h then t else (h2, a) :: removeConn t h

/- ConnectionManager.disconnect. -/
def ws_disconnect (ws : ConnectionManagerState) (key : String) (h : Nat) :
    ConnectionManagerState :=
  match dlookup ws.active_connections key with
  | none => ws
  | some conns =>
    { active_connections := dinsert ws.active_connections key (removeConn conns h) }

def sendToAgentGo (key : String) : List (Nat × Bool) → ConnectionManagerState →
    Bool × ConnectionManagerState
  | [], ws => (false, ws)
  | (h, alive) :: rest, ws =>
    if alive then (true, ws)
    else sendToAgentGo key rest (ws_disconnect ws key h)

/- ConnectionManager.send_to_agent: try each connection of agent:{id} in
   order; first successful send wins; failed handles are pruned. -/
def send_to_agent (agent_id : String) (ws : ConnectionManagerState) :
    Bool × ConnectionManagerState :=
  let key := "agent:" ++ agent_id
  match dlookup ws.active_connections key with
  | none => (false, ws)
  | some conns => sendToAgentGo key conns ws

/- CommandService.send_command_to_robot, composed with the real transport. -/
def send_command_to_robot (now : Int) (command_id : Nat) (robot_id action : String)
    (parameters : List (String × String)) (ws : ConnectionManagerState)
    (st : CommandServiceState) :
    Except String CommandRecord × CommandServiceState × ConnectionManagerState :=
  let sent := send_to_agent robot_id ws
  let res := send_command_core now command_id robot_id action parameters sent.1 st
  (res.1, res.2, sent.2)

/- Model of src/backend/app/services/agent_registry.py.
   The opaque system_info / system_metrics / robot_status telemetry blobs are
   not consulted by any verified operation and are omitted from the record. -/

structure Agent where
  agent_id : String
  hostname : String
  ip_address : String
  port : Nat
  status : String
  last_seen : Int
  registered_at : Int
  capabilities : List String
  version : String
  deriving DecidableEq, Repr

structure AgentRegistryState where
  agents : List (String × Agent)
  deriving DecidableEq, Repr

structure AgentInfo where
  hostname : Option String := none
  ip_address : Option String := none
  port : Option Nat := none
  capabilities : List String := []
  version : Option String := none
  robot_capabilities : List String := []
  deriving DecidableEq, Repr

/- AgentRegistryService.register_agent. -/
def register_agent (now : Int) (agent_id : String) (info : AgentInfo)
    (st : AgentRegistryState) : Agent × AgentRegistryState :=
  let agent_data : Agent :=
    { agent_id := agent_id
      hostname := info.hostname.getD ("unknown-" ++ agent_id)
      ip_address := info.ip_address.getD "unknown"
      port := info.port.getD 8080
      status := "online"
      last_seen := now
      registered_at := now
      capabilities := info.capabilities
      version := info.version.getD "unknown" }
  (agent_data, { agents := dinsert st.agents agent_id agent_data })

/- AgentRegistryService.update_agent_heartbeat (blob storage omitted). -/
def agent_update_heartbeat (now : Int) (agent_id : String)
    (st : AgentRegistryState) : Bool × AgentRegistryState :=
  match dlookup st.agents agent_id with
  | none => (false, st)
  | some a =>
    let a2 : Agent := { a with last_seen := now, status := "online" }
    (true, { agents := dinsert st.agents agent_id a2 })

/- AgentRegistryService.get_online_agents: heartbeat within 2 minutes keeps
   an agent in the returned list; a stale agent is mutated to "offline". -/
def get_online_agents (now : Int) (st : AgentRegistryState) :
    List Agent × AgentRegistryState :=
  let cutoff := now - 120
  let online := (st.agents.filter (fun kv => cutoff < kv.2.last_seen)).map (·.2)
  let agents2 := st.agents.map (fun kv =>
    if cutoff < kv.2.last_seen then kv else (kv.1, { kv.2 with status := "offline" }))
  (online, { agents := agents2 })

/- AgentRegistryService.remove_agent. -/
def remove_agent (agent_id : String) (st : AgentRegistryState) :
    Bool × AgentRegistryState :=
  match dlookup st.agents agent_id with
  | some _ => (true, { agents := derase st.agents agent_id })
  | none => (false, st)

/- Model of src/backend/app/services/robot_registry.py. -/

structure Robot where
  id : String
  agent_id : String
  name : String
  hostname : String
  status : String
  current_action : String
  battery_level : ℚ
  cpu_usage : ℚ
  memory_usage : ℚ
  temperature : ℚ
  ip_address : String
  location : String
  capabilities : List String
  create3_connected : Bool
  create3_status : String
  oak_connected : Bool
  workspace_running : Bool
  uptime : ℚ
  last_update : Int
  registered_at : Int
  deriving DecidableEq, Repr

structure RobotRegistryState where
  robots : List (String × Robot)
  deriving DecidableEq, Repr

structure RobotInfo where
  name : Option String := none
  hostname : Option String := none
  battery_level : Option ℚ := none
  cpu_usage : Option ℚ := none
  memory_usage : Option ℚ := none
  temperature : Option ℚ := none
  ip_address : Option String := none
  location : Option String := none
  capabilities : List String := []
  create3_connected : Option Bool := none
  create3_status : Option String := none
  oak_connected : Option Bool := none
  workspace_running : Option Bool := none
  uptime : Option ℚ := none
  deriving DecidableEq, Repr

/- RobotRegistryService.register_robot. -/
def register_robot (now : Int) (robot_id : String) (info : RobotInfo)
    (st : RobotRegistryState) : Robot × RobotRegistryState :=
  let robot_data : Robot :=
    { id := robot_id
      agent_id := robot_id
      name := info.name.getD ("Robot " ++ robot_id)
      hostname := info.hostname.getD ("unknown-" ++ robot_id)
      status := "online"
      current_action := "idle"
      battery_level := info.battery_level.getD 100
      cpu_usage := info.cpu_usage.getD 0
      memory_usage := info.memory_usage.getD 0
      temperature := info.temperature.getD 25
      ip_address := info.ip_address.getD "unknown"
      location := info.location.getD "Unknown"
      capabilities := info.capabilities
      create3_connected := info.create3_connected.getD false
      create3_status := info.create3_status.getD "unknown"
      oak_connected := info.oak_connected.getD false
      workspace_running := info.workspace_running.getD false
      uptime := info.uptime.getD 0
      last_update := now
      registered_at := now }
  (robot_data, { robots := dinsert st.robots robot_id robot_data })

/- Partial robot-field update dict, as passed to update_robot_status and to
   the health service (only the keys that callers in the verified paths put
   into status_data / robot_update are modelled). -/
structure StatusData where
  battery_level : Option ℚ := none
  cpu_usage : Option ℚ := none
  memory_usage : Option ℚ := none
  temperature : Option ℚ := none
  current_action : Option String := none
  workspace_running : Option Bool := none
  create3_connected : Option Bool := none
  create3_status : Option String := none
  oak_connected : Option Bool := none
  uptime : Option ℚ := none
  disk_usage : Option ℚ := none
  network_latency : Option ℚ := none
  errors_count : Option ℚ := none
  deriving DecidableEq, Repr

def statusDataNonempty (d : StatusData) : Bool :=
  d.battery_level.isSome || d.cpu_usage.isSome || d.memory_usage.isSome ||
  d.temperature.isSome || d.current_action.isSome || d.workspace_running.isSome ||
  d.create3_connected.isSome || d.create3_status.isSome || d.oak_connected.isSome ||
  d.uptime.isSome || d.disk_usage.isSome || d.network_latency.isSome ||
  d.errors_count.isSome

def applyStatusData (r : Robot) (d : StatusData) : Robot :=
  { r with
    battery_level := d.battery_level.getD r.battery_level
    cpu_usage := d.cpu_usage.getD r.cpu_usage
    memory_usage := d.memory_usage.getD r.memory_usage
    temperature := d.temperature.getD r.temperature
    current_action := d.current_action.getD r.current_action
    workspace_running := d.workspace_running.getD r.workspace_running
    create3_connected := d.create3_connected.getD r.create3_connected
    create3_status := d.create3_status.getD r.create3_status
    oak_connected := d.oak_connected.getD r.oak_connected
    uptime := d.uptime.getD r.uptime }

/- RobotRegistryService.update_robot_status: dict merge plus last_update. -/
def update_robot_status (now : Int) (robot_id : String) (d : StatusData)
    (st : RobotRegistryState) : Bool × RobotRegistryState :=
  match dlookup st.robots robot_id with
  | none => (false, st)
  | some r =>
    let r2 : Robot := { applyStatusData r d with last_update := now }
    (true, { robots := dinsert st.robots robot_id r2 })

/- RobotRegistryService.set_robot_status (Python `if action:` truthiness). -/
def set_robot_status (now : Int) (robot_id status : String) (action : Option String)
    (st : RobotRegistryState) : Bool × RobotRegistryState :=
  match dlookup st.robots robot_id with
  | none => (false, st)
  | some r =>
    let r1 := { r with status := status }
    let r2 := if strTruthy action then { r1 with current_action := action.getD r1.current_action } else r1
    (true, { robots := dinsert st.robots robot_id { r2 with last_update := now } })

/- RobotRegistryService.get_online_robots: pure read; a robot is listed iff
   its own last_update is within 5 minutes and its status is not "offline".
   The registry state is returned unchanged (the method writes nothing). -/
def get_online_robots (now : Int) (st : RobotRegistryState) :
    List Robot × RobotRegistryState :=
  let cutoff := now - 300
  ((st.robots.filter (fun kv => cutoff < kv.2.last_update && kv.2.status != "offline")).map (·.2), st)

/- Model of src/backend/app/services/health_monitoring.py. -/

structure HealthEntry where
  robot_id : String
  timestamp : Int
  battery_level : ℚ
  cpu_usage : ℚ
  memory_usage : ℚ
  temperature : ℚ
  disk_usage : ℚ
  network_latency : ℚ
  errors_count : ℚ
  uptime : ℚ
  health_score : ℚ
  status : String
  deriving DecidableEq, Repr

structure HealthServiceState where
  health_checks : List (String × HealthEntry)
  deriving DecidableEq, Repr

/- The per-metric sub-scores of _calculate_health_score, branch for branch. -/
def battery_score (battery : ℚ) : ℚ :=
  if battery > 50 then 100
  else if battery > 20 then 50 + (battery - 20) * (50 / 30)
  else battery * (50 / 20)

def cpu_score (cpu : ℚ) : ℚ := max 0 (100 - cpu)

def memory_score (memory : ℚ) : ℚ := max 0 (100 - memory)

def temp_score (temp : ℚ) : ℚ :=
  if temp < 50 then 100
  else if temp < 70 then 100 - (temp - 50) * 2
  else max 0 (60 - (temp - 70) * 3)

def latency_score (latency : ℚ) : ℚ :=
  if latency < 50 then 100
  else if latency < 200 then 100 - (latency - 50) * (1 / 2)
  else max 0 (25 - (latency - 200) * (1 / 10))

/- HealthMonitoringService._calculate_health_score: weighted sum of the
   sub-scores (weights 0.3, 0.2, 0.2, 0.15, 0.15). -/
def calculate_health_score (battery cpu memory temp latency : ℚ) : ℚ :=
  battery_score battery * (3 / 10) + cpu_score cpu * (1 / 5) +
  memory_score memory * (1 / 5) + temp_score temp * (3 / 20) +
  latency_score latency * (3 / 20)

/- HealthMonitoringService._determine_health_status. -/
def determine_health_status (score : ℚ) : String :=
  if score ≥ 80 then "healthy"
  else if score ≥ 60 then "good"
  else if score ≥ 40 then "warning"
  else if score ≥ 20 then "poor"
  else "critical"

/- HealthMonitoringService.update_robot_health: build the entry from the
   incoming dict with default 0 per missing key, score it, store it. -/
def update_robot_health (now : Int) (robot_id : String) (d : StatusData)
    (st : HealthServiceState) : HealthServiceState :=
  let battery := d.battery_level.getD 0
  let cpu := d.cpu_usage.getD 0
  let memory := d.memory_usage.getD 0
  let temp := d.temperature.getD 0
  let latency := d.network_latency.getD 0
  let score := calculate_health_score battery cpu memory temp latency
  let entry : HealthEntry :=
    { robot_id := robot_id
      timestamp := now
      battery_level := battery
      cpu_usage := cpu
      memory_usage := memory
      temperature := temp
      disk_usage := d.disk_usage.getD 0
      network_latency := latency
      errors_count := d.errors_count.getD 0
      uptime := d.uptime.getD 0
      health_score := score
      status := determine_health_status score }
  { health_checks := dinsert st.health_checks robot_id entry }

/- HealthMonitoringService.get_robot_health: a reading older than 5 minutes
   is forced (in place, hence the returned state) to status "stale", score 0. -/
def get_robot_health (now : Int) (robot_id : String) (st : HealthServiceState) :
    Option HealthEntry × HealthServiceState :=
  match dlookup st.health_checks robot_id with
  | none => (none, st)
  | some h =>
    if now - h.timestamp > 300 then
      let h2 : HealthEntry := { h with status := "stale", health_score := 0 }
      (some h2, { health_checks := dinsert st.health_checks robot_id h2 })
    else
      (some h, st)

/- Transient alert record (the human-readable message text is a formatted
   string carrying no further data and is not modelled). -/
structure Alert where
  robot_id : String
  alert_type : String
  severity : String
  timestamp : Int
  deriving DecidableEq, Repr

def alertsFor (now : Int) (robot_id : String) (h : HealthEntry) : List Alert :=
  (if h.battery_level < 15 then
    [{ robot_id := robot_id, alert_type := "critical_battery", severity := "critical", timestamp := now }] else []) ++
  (if h.temperature > 70 then
    [{ robot_id := robot_id, alert_type := "high_temperature", severity := "warning", timestamp := now }] else []) ++
  (if h.cpu_usage > 90 then
    [{ robot_id := robot_id, alert_type := "high_cpu", severity := "warning", timestamp := now }] else []) ++
  (if h.status == "stale" then
    [{ robot_id := robot_id, alert_type := "stale_data", severity := "warning", timestamp := now }] else [])

def collectAlerts (now : Int) : List String → HealthServiceState →
    List Alert × HealthServiceState
  | [], st => ([], st)
  | rid :: rest, st =>
    match get_robot_health now rid st with
    | (none, st2) => collectAlerts now rest st2
    | (some h, st2) =>
      let tail := collectAlerts now rest st2
      (alertsFor now rid h ++ tail.1, tail.2)

/- HealthMonitoringService.get_critical_alerts: iterate the stored checks,
   re-reading each entry through get_robot_health (which may mark it stale). -/
def get_critical_alerts (now : Int) (st : HealthServiceState) :
    List Alert × HealthServiceState :=
  collectAlerts now (st.health_checks.map (·.1)) st

/- Model of src/backend/app/services/robot_manager.py: the facade that owns
   all the service states (the logging service records free text only and is
   not modelled; websocket broadcasts to the dashboard are fire-and-forget
   and do not touch the verified state). -/

structure RobotManagerState where
  robot_registry : RobotRegistryState
  agent_registry : AgentRegistryState
  command_service : CommandServiceState
  health_service : HealthServiceState
  ws : ConnectionManagerState
  deriving DecidableEq, Repr

/- RobotManager.update_robot_status: registry merge, then health update when
   any of the four health keys is present in the dict. -/
def rm_update_robot_status (now : Int) (robot_id : String) (d : StatusData)
    (st : RobotManagerState) : Bool × RobotManagerState :=
  let upd := update_robot_status now robot_id d st.robot_registry
  if upd.1 then
    let health2 :=
      if d.battery_level.isSome || d.cpu_usage.isSome || d.memory_usage.isSome ||
          d.temperature.isSome then
        update_robot_health now robot_id d st.health_service
      else
        st.health_service
    (true, { st with robot_registry := upd.2, health_service := health2 })
  else
    (false, st)

/- RobotManager.set_robot_status (logging side effect omitted). -/
def rm_set_robot_status (now : Int) (robot_id status : String)
    (action : Option String) (st : RobotManagerState) : Bool × RobotManagerState :=
  let upd := set_robot_status now robot_id status action st.robot_registry
  (upd.1, { st with robot_registry := upd.2 })

/- RobotManager.register_agent: registry upsert plus creation of the paired
   robot with the seeded defaults from the agent info. -/
def rm_register_agent (now : Int) (agent_id : String) (info : AgentInfo)
    (st : RobotManagerState) : Agent × RobotManagerState :=
  let reg := register_agent now agent_id info st.agent_registry
  let robot_info : RobotInfo :=
    { name := some (info.hostname.getD ("Robot " ++ agent_id))
      hostname := some (info.hostname.getD ("unknown-" ++ agent_id))
      ip_address := some (info.ip_address.getD "unknown")
      battery_level := some 100
      cpu_usage := some 0
      memory_usage := some 0
      temperature := some 25
      location := some "Museum"
      capabilities := info.robot_capabilities
      create3_connected := some false
      oak_connected := some false
      workspace_running := some false
      uptime := some 0 }
  let rreg := register_robot now agent_id robot_info st.robot_registry
  (reg.1, { st with agent_registry := reg.2, robot_registry := rreg.2 })

/- The heartbeat payload fields that RobotManager.update_agent_heartbeat
   reads out of the incoming data dict. -/
structure HeartbeatData where
  cpu_percent : Option ℚ := none
  memory_percent : Option ℚ := none
  temperature : Option ℚ := none
  battery_level : Option ℚ := none
  workspace_running : Option Bool := none
  create3_connected : Option Bool := none
  create3_status : Option String := none
  oak_connected : Option Bool := none
  uptime : Option ℚ := none
  deriving DecidableEq, Repr

/- The robot_update dict built by RobotManager.update_agent_heartbeat. -/
def heartbeatToStatusData (d : HeartbeatData) : StatusData :=
  { cpu_usage := d.cpu_percent
    memory_usage := d.memory_percent
    temperature := d.temperature
    battery_level := d.battery_level
    current_action := d.workspace_running.map
      (fun w => if w then "person_following" else "idle")
    workspace_running := d.workspace_running
    create3_connected := d.create3_connected
    create3_status := d.create3_status
    oak_connected := d.oak_connected
    uptime := d.uptime }

/- RobotManager.update_agent_heartbeat. -/
def rm_update_agent_heartbeat (now : Int) (agent_id : String)
    (data : Option HeartbeatData) (st : RobotManagerState) :
    Bool × RobotManagerState :=
  let hb := agent_update_heartbeat now agent_id st.agent_registry
  let st1 := { st with agent_registry := hb.2 }
  if hb.1 then
    match data with
    | none => (true, st1)
    | some d =>
      let robot_update := heartbeatToStatusData d
      if statusDataNonempty robot_update then
        (true, (rm_update_robot_status now agent_id robot_update st1).2)
      else
        (true, st1)
  else
    (false, st1)

/- RobotManager.remove_agent: registry removal cascades to marking the
   paired robot offline (not deleting it). -/
def rm_remove_agent (now : Int) (agent_id : String) (st : RobotManagerState) :
    Bool × RobotManagerState :=
  let rem := remove_agent agent_id st.agent_registry
  let st1 := { st with agent_registry := rem.2 }
  if rem.1 then
    (true, (rm_set_robot_status now agent_id "offline" none st1).2)
  else
    (false, st1)

/- RobotManager.send_command_to_robot: dispatch through the command service,
   then apply the intent-driven status for the recognized actions. -/
def rm_send_command_to_robot (now : Int) (command_id : Nat)
    (robot_id action : String) (parameters : List (String × String))
    (st : RobotManagerState) : Except String CommandRecord × RobotManagerState :=
  let disp := send_command_to_robot now command_id robot_id action parameters
    st.ws st.command_service
  let st1 := { st with command_service := disp.2.1, ws := disp.2.2 }
  match disp.1 with
  | Except.error e => (Except.error e, st1)
  | Except.ok cd =>
    let st2 :=
      if action == "start" then
        (rm_set_robot_status now robot_id "active" (some "person_following") st1).2
      else if action == "stop" then
        (rm_set_robot_status now robot_id "idle" (some "stopped") st1).2
      else if action == "restart" then
        (rm_set_robot_status now robot_id "restarting" (some "system_restart") st1).2
      else if action == "reboot" then
        (rm_set_robot_status now robot_id "rebooting" (some "system_reboot") st1).2
      else
        st1
    (Except.ok cd, st2)

/- Python str.startswith / str.endswith / s[:-1], written on the character
   lists underlying the strings. -/
def pyStartsWith (s pre : String) : Bool := pre.data.isPrefixOf s.data

def pyEndsWith (s suf : String) : Bool := suf.data.isSuffixOf s.data

def pyDropLast (s : String) : String := String.mk s.data.dropLast

/- Model of has_permission from src/backend/app/auth/middleware.py. -/
def has_permission (user_permissions : List String) (required_permission : String) : Bool :=
  user_permissions.any (fun perm =>
    perm == "*" || perm == required_permission ||
    (pyEndsWith perm ".*" && pyStartsWith required_permission (pyDropLast perm)))

/- The ADMIN and MUSEUM granted sets from middleware.PERMISSIONS. -/
def adminPermissions : List String :=
  ["robot.*", "agent.*", "exhibition.*", "system.*", "logs.*"]

def museumPermissions : List String :=
  ["robot.view", "exhibition.start", "exhibition.stop", "logs.view_basic"]

/- Model of the agent connection loop from src/agent/artbot_agent/main.py.

   ArtbotAgent.connect_websocket is a bounded loop: max_retries = 5 attempts,
   retry_delay starting at 5 seconds and doubling after each failure, with no
   sleep after the final failed attempt.  `outcomes attempt` tells whether the
   websockets.connect call of the given attempt index succeeds.  The result is
   the success flag together with the sleep durations performed, in order. -/

def connectGo (outcomes : Nat → Bool) : Nat → Nat → Nat → Bool × List Nat
  | _, 0, _ => (false, [])
  | attempt, remaining + 1, retry_delay =>
    if outcomes attempt then (true, [])
    else if remaining = 0 then (false, [])
    else
      let rest := connectGo outcomes (attempt + 1) remaining (retry_delay * 2)
      (rest.1, retry_delay :: rest.2)

def connect_websocket (outcomes : Nat → Bool) : Bool × List Nat :=
  connectGo outcomes 0 5 5

/- The waits of one iteration of ArtbotAgent.run after the connect phase:
   a failed connect_websocket sleeps 10 seconds and `continue`s, which still
   runs the finally block; the finally block sleeps 5 seconds whenever
   self.running is still true.  After a session ends (disconnection) only the
   finally-block 5 second wait runs. -/
def reconnectDelays (connectOk running : Bool) : List Nat :=
  (if connectOk then [] else [10]) ++ (if running then [5] else [])

/- One run of the outer `while self.running` loop of ArtbotAgent.run, with
   fuel bounding how many iterations we observe.  `runAtTop i` is the value
   of self.running at the while-test of iteration i, `runAtFinally i` its
   value when iteration i reaches the finally block, and `connects i` the
   connect outcomes of iteration i.  The result collects every sleep in order
   and reports whether the loop exited within the observed iterations. -/
def outerRun (connects : Nat → Nat → Bool) (runAtTop runAtFinally : Nat → Bool) :
    Nat → Nat → List Nat × Bool
  | 0, _ => ([], false)
  | fuel + 1, i =>
    if runAtTop i then
      let conn := connect_websocket (connects i)
      let rest := outerRun connects runAtTop runAtFinally fuel (i + 1)
      (conn.2 ++ reconnectDelays conn.1 (runAtFinally i) ++ rest.1, rest.2)
    else
      ([], true)

/- Derived notions used by the verified properties. -/

/- Status of the value a dispatch call returns to its caller. -/
def exceptStatus : Except String CommandRecord → Option String
  | Except.ok cd => some cd.status
  | Except.error _ => none

/- Error message of a dispatch call that raised. -/
def exceptError : Except String CommandRecord → Option String
  | Except.ok _ => none
  | Except.error e => some e

/- Length of the stored per-robot command history. -/
def historyLength (st : CommandServiceState) (robot_id : String) : Nat :=
  ((dlookup st.command_history robot_id).getD []).length

def NoDupKeys {α β : Type} (l : List (α × β)) : Prop :=
  (l.map Prod.fst).Nodup

/- The command_data record as first built by send_command_to_robot. -/
def pendingRecord (now : Int) (cid : Nat) (rid a : String)
    (p : List (String × String)) : CommandRecord :=
  { command_id := cid
    robot_id := rid
    action := a
    parameters := p
    timestamp := now
    status := "pending"
    error := none
    completed_at := none
    response := none }

/- The service state right after the two stores and before the send result
   is processed (the first half of send_command_to_robot). -/
def sendStage1 (now : Int) (cid : Nat) (rid a : String)
    (p : List (String × String)) (st : CommandServiceState) : CommandServiceState :=
  { command_history := dinsert st.command_history rid
      ((dlookup st.command_history rid).getD [] ++ [pendingRecord now cid rid a p])
    pending_commands := dinsert st.pending_commands cid (pendingRecord now cid rid a p) }

/- The record left in the pending index by a dispatch. -/
def sentRecord (now : Int) (cid : Nat) (rid a : String)
    (p : List (String × String)) (ok : Bool) : CommandRecord :=
  { pendingRecord now cid rid a p with
    status := if ok then "sent" else "failed"
    error := if ok then none else some "WebSocket send failed" }

/- The history of the given robot holds an entry with the given command id. -/
def HasCmd (st : CommandServiceState) (robot_id : String) (cid : Nat) : Prop :=
  cid ∈ ((dlookup st.command_history robot_id).getD []).map CommandRecord.command_id

/- Every command id in the pending index has a history entry with the same
   id under the record's robot. -/
def PendingInHistory (st : CommandServiceState) : Prop :=
  ∀ cid cmd, dlookup st.pending_commands cid = some cmd →
    ∃ e ∈ (dlookup st.command_history cmd.robot_id).getD [],
      e.command_id = cid

/- The inductive invariant: unique pending keys plus the history property. -/
def CmdInv (st : CommandServiceState) : Prop :=
  NoDupKeys st.pending_commands ∧ PendingInHistory st

/- The operations that drive the command service, with the transport outcome
   of a dispatch supplied as data. -/
inductive CmdOp where
  | send (now : Int) (cid : Nat) (robot_id action : String)
      (parameters : List (String × String)) (ok : Bool)
  | respond (now : Int) (cid : Nat) (rd : List (String × String))
  | cancel (now : Int) (cid : Nat)

def applyCmdOp (st : CommandServiceState) : CmdOp → CommandServiceState
  | CmdOp.send now cid rid a p ok => (send_command_core now cid rid a p ok st).2
  | CmdOp.respond now cid rd => handle_command_response now cid rd st
  | CmdOp.cancel now cid => (cancel_command now cid st).2

def runCmdOps (ops : List CmdOp) (st : CommandServiceState) : CommandServiceState :=
  ops.foldl applyCmdOp st

/- A run of n dispatches (all delivered) against one robot, with distinct
   command ids, used to exhibit the unbounded history. -/
def dispatchN : Nat → CommandServiceState → CommandServiceState
  | 0, st => st
  | n + 1, st => dispatchN n ((send_command_core 0 n "r1" "start" [] true st).2)

/- Health sub-scores written from the spec text of section 4.5 (battery:
   full credit above 50, linear ramp 50 to 100 between 20 and 50, linear ramp
   0 to 50 below 20; and so on), to be compared with the code's formulas.
   Where the spec names only endpoints, the ramps are the lines through those
   endpoints; for the decays above 70 degrees and above 200 ms the spec says
   only "steeper" / "shallow", so the slopes 3 and 1/10 are taken over. -/
def spec_battery_sub (b : ℚ) : ℚ :=
  if b > 50 then 100
  else if b > 20 then 50 + (b - 20) * ((100 - 50) / (50 - 20))
  else b * ((50 - 0) / (20 - 0))

def spec_cpu_sub (c : ℚ) : ℚ := max 0 (100 - c)

def spec_memory_sub (m : ℚ) : ℚ := max 0 (100 - m)

def spec_temperature_sub (t : ℚ) : ℚ :=
  if t < 50 then 100
  else if t < 70 then 100 - (t - 50) * ((100 - 60) / (70 - 50))
  else max 0 (60 - (t - 70) * 3)

def spec_latency_sub (l : ℚ) : ℚ :=
  if l < 50 then 100
  else if l < 200 then 100 - (l - 50) * ((100 - 25) / (200 - 50))
  else max 0 (25 - (l - 200) * (1 / 10))

def spec_health_score (b c m t l : ℚ) : ℚ :=
  spec_battery_sub b * (30 / 100) + spec_cpu_sub c * (20 / 100) +
  spec_memory_sub m * (20 / 100) + spec_temperature_sub t * (15 / 100) +
  spec_latency_sub l * (15 / 100)

/- The authorization predicate written from the spec text of section 6:
   a bare "*", an exact match, or a suffix-wildcard entry whose part before
   the "*" is a prefix of the required capability. -/
def specGrants (perms : List String) (required : String) : Prop :=
  "*" ∈ perms ∨ required ∈ perms ∨
    ∃ p ∈ perms, ".*".data <:+ p.data ∧ p.data.dropLast <+: required.data

/- Concrete scenario states used by the closed theorems below. -/

def c4Robot : Robot := (register_robot 0 "r1" {} { robots := [] }).1

def c4State : RobotManagerState :=
  { robot_registry := { robots := [("r1", c4Robot)] }
    agent_registry := { agents := [] }
    command_service := initCommandServiceState
    health_service := { health_checks := [] }
    ws := { active_connections := [("agent:r1", [(1, true)])] } }

def emptyRM : RobotManagerState :=
  { robot_registry := { robots := [] }
    agent_registry := { agents := [] }
    command_service := initCommandServiceState
    health_service := { health_checks := [] }
    ws := { active_connections := [("agent:r1", [(1, true)])] } }

/- Agent r1 registered at time 0 (its robot is created alongside). -/
def rmAfterRegister : RobotManagerState := (rm_register_agent 0 "r1" {} emptyRM).2

/- The spec scenario heartbeat: battery_level 10, temperature 75. -/
def rmAfterHeartbeat : RobotManagerState :=
  (rm_update_agent_heartbeat 0 "r1"
    (some { battery_level := some 10, temperature := some 75 }) rmAfterRegister).2

/- A command dispatched (and delivered) at time 1 with id 7. -/
def rmAfterDispatch : Except String CommandRecord × RobotManagerState :=
  rm_send_command_to_robot 1 7 "r1" "start" [] rmAfterHeartbeat

/- A transport state whose only connection for agent r1 fails on send. -/
def wsDead : ConnectionManagerState :=
  { active_connections := [("agent:r1", [(1, false)])] }

def wsAlive : ConnectionManagerState :=
  { active_connections := [("agent:r1", [(1, true)])] }

/- Registries holding one stale pair: agent r1 last seen at 0, its robot in
   status "active" with last_update 0. -/
def staleAgentReg : AgentRegistryState :=
  { agents := [("r1", (register_agent 0 "r1" {} { agents := [] }).1)] }

def staleRobotReg : RobotRegistryState :=
  { robots := [("r1",
      { (register_robot 0 "r1" {} { robots := [] }).1 with status := "active" })] }

/- Association-list lemmas. -/

theorem dlookup_dinsert {α β : Type} [DecidableEq α] (l : List (α × β)) (k k2 : α) (v : β) :
    dlookup (dinsert l k v) k2 = if k2 = k then some v else dlookup l k2 := by
  induction l with
  | nil => simp [dinsert, dlookup]
  | cons kv t ih =>
    obtain ⟨k3, v3⟩ := kv
    by_cases h1 : k = k3
    · subst h1
      by_cases h2 : k2 = k <;> simp [dinsert, dlookup, h2]
    · by_cases h2 : k2 = k3
      · subst h2
        have hk : ¬k2 = k := fun hh => h1 hh.symm
        simp [dinsert, dlookup, h1, hk]
      · simp [dinsert, dlookup, h1, h2, ih]

theorem dlookup_derase_ne {α β : Type} [DecidableEq α] (l : List (α × β)) (k k2 : α)
    (h : k2 ≠ k) : dlookup (derase l k) k2 = dlookup l k2 := by
  induction l with
  | nil => simp [derase]
  | cons kv t ih =>
    obtain ⟨k3, v3⟩ := kv
    by_cases h1 : k = k3
    · subst h1
      simp [derase, dlookup, h]
    · by_cases h2 : k2 = k3 <;> simp [derase, dlookup, h1, h2, ih]

theorem dlookup_eq_none_of_not_memKeys {α β : Type} [DecidableEq α]
    (l : List (α × β)) (k : α) (h : k ∉ l.map Prod.fst) : dlookup l k = none := by
  induction l with
  | nil => simp [dlookup]
  | cons kv t ih =>
    obtain ⟨k3, v3⟩ := kv
    simp only [List.map_cons, List.mem_cons, not_or] at h
    simp [dlookup, h.1, ih h.2]

theorem memKeys_derase {α β : Type} [DecidableEq α] (l : List (α × β)) (k k2 : α)
    (h : k2 ∈ (derase l k).map Prod.fst) : k2 ∈ l.map Prod.fst := by
  induction l with
  | nil => simp [derase] at h
  | cons kv t ih =>
    obtain ⟨k3, v3⟩ := kv
    by_cases h1 : k = k3
    · subst h1
      simp only [derase, if_pos rfl] at h
      simp only [List.map_cons]
      exact List.mem_cons_of_mem _ h
    · simp only [derase, if_neg h1, List.map_cons] at h ⊢
      rcases List.mem_cons.mp h with h2 | h2
      · exact List.mem_cons.mpr (Or.inl h2)
      · exact List.mem_cons.mpr (Or.inr (ih h2))

theorem nodupKeys_derase {α β : Type} [DecidableEq α] (l : List (α × β)) (k : α)
    (h : NoDupKeys l) : NoDupKeys (derase l k) := by
  induction l with
  | nil => simpa [derase] using h
  | cons kv t ih =>
    obtain ⟨k3, v3⟩ := kv
    unfold NoDupKeys at h ⊢
    simp only [List.map_cons, List.nodup_cons] at h
    by_cases h1 : k = k3
    · subst h1
      simpa [derase] using h.2
    · simp only [derase, if_neg h1, List.map_cons, List.nodup_cons]
      exact ⟨fun hc => h.1 (memKeys_derase t k k3 hc), ih h.2⟩

theorem dlookup_derase_self {α β : Type} [DecidableEq α] (l : List (α × β)) (k : α)
    (h : NoDupKeys l) : dlookup (derase l k) k = none := by
  induction l with
  | nil => simp [derase, dlookup]
  | cons kv t ih =>
    obtain ⟨k3, v3⟩ := kv
    unfold NoDupKeys at h
    simp only [List.map_cons, List.nodup_cons] at h
    by_cases h1 : k = k3
    · subst h1
      simp only [derase, if_pos rfl]
      exact dlookup_eq_none_of_not_memKeys t k h.1
    · simp [derase, h1, dlookup, ih h.2]

theorem memKeys_dinsert {α β : Type} [DecidableEq α] (l : List (α × β)) (k k2 : α) (v : β)
    (h : k2 ∈ (dinsert l k v).map Prod.fst) : k2 ∈ l.map Prod.fst ∨ k2 = k := by
  induction l with
  | nil =>
    simp only [dinsert, List.map_cons, List.map_nil, List.mem_singleton] at h
    exact Or.inr h
  | cons kv t ih =>
    obtain ⟨k3, v3⟩ := kv
    by_cases h1 : k = k3
    · subst h1
      simp only [dinsert, if_pos rfl, List.map_cons] at h
      rcases List.mem_cons.mp h with h2 | h2
      · exact Or.inr h2
      · exact Or.inl (by simp only [List.map_cons]; exact List.mem_cons_of_mem _ h2)
    · simp only [dinsert, if_neg h1, List.map_cons] at h
      rcases List.mem_cons.mp h with h2 | h2
      · exact Or.inl (by simp only [List.map_cons]; exact List.mem_cons.mpr (Or.inl h2))
      · rcases ih h2 with h3 | h3
        · exact Or.inl (by simp only [List.map_cons]; exact List.mem_cons_of_mem _ h3)
        · exact Or.inr h3

theorem nodupKeys_dinsert {α β : Type} [DecidableEq α] (l : List (α × β)) (k : α) (v : β)
    (h : NoDupKeys l) : NoDupKeys (dinsert l k v) := by
  induction l with
  | nil => simp [dinsert, NoDupKeys]
  | cons kv t ih =>
    obtain ⟨k3, v3⟩ := kv
    unfold NoDupKeys at h ⊢
    simp only [List.map_cons, List.nodup_cons] at h
    by_cases h1 : k = k3
    · subst h1
      simpa [dinsert, List.nodup_cons] using h
    · simp only [dinsert, if_neg h1, List.map_cons, List.nodup_cons]
      refine ⟨fun hc => ?_, ih h.2⟩
      rcases memKeys_dinsert t k k3 v hc with h2 | h2
      · exact h.1 h2
      · exact h1 h2.symm

theorem updateFirst_length {α : Type} (p : α → Bool) (f : α → α) (l : List α) :
    (updateFirst p f l).length = l.length := by
  induction l with
  | nil => rfl
  | cons x t ih =>
    by_cases h : p x <;> simp [updateFirst, h, ih]

theorem updateFirst_map_of_fix {α β : Type} (p : α → Bool) (f : α → α) (g : α → β)
    (hf : ∀ x, g (f x) = g x) (l : List α) :
    (updateFirst p f l).map g = l.map g := by
  induction l with
  | nil => rfl
  | cons x t ih =>
    by_cases h : p x <;> simp [updateFirst, h, ih, hf]

/- Claim C9: authorization check, code against spec wording. -/

/-- C9: the authorization check succeeds if and only if the granted list
contains the bare string "*", or the exact required capability, or an entry
ending in ".*" whose prefix before the "*" is a prefix of the required
capability. -/
theorem c9_permission_matching (perms : List String) (required : String) :
    has_permission perms required = true ↔ specGrants perms required := by
  unfold has_permission specGrants pyEndsWith pyStartsWith pyDropLast
  rw [List.any_eq_true]
  constructor
  · rintro ⟨p, hp, hcase⟩
    simp only [Bool.or_eq_true, Bool.and_eq_true, beq_iff_eq,
      List.isSuffixOf_iff_suffix, List.isPrefixOf_iff_prefix] at hcase
    rcases hcase with (h | h) | h
    · exact Or.inl (h ▸ hp)
    · exact Or.inr (Or.inl (h ▸ hp))
    · exact Or.inr (Or.inr ⟨p, hp, h.1, h.2⟩)
  · rintro (h | h | ⟨p, hp, h1, h2⟩)
    · exact ⟨"*", h, by simp⟩
    · exact ⟨required, h, by simp⟩
    · refine ⟨p, hp, ?_⟩
      simp only [Bool.or_eq_true, Bool.and_eq_true, beq_iff_eq,
        List.isSuffixOf_iff_suffix, List.isPrefixOf_iff_prefix]
      exact Or.inr ⟨h1, h2⟩

/-- Witness for C9: the wildcard entry robot.* of the ADMIN set grants the
capability robot.control. -/
theorem c9_permission_matching_witness :
    has_permission adminPermissions "robot.control" = true :=
  (c9_permission_matching adminPermissions "robot.control").mpr
    (Or.inr (Or.inr ⟨"robot.*", by decide, by decide, by decide⟩))

/- Claim C6: health score is the spec's weighted sum; bounds lemmas. -/

theorem battery_score_eq_spec (b : ℚ) : battery_score b = spec_battery_sub b := by
  unfold battery_score spec_battery_sub
  norm_num

theorem temp_score_eq_spec (t : ℚ) : temp_score t = spec_temperature_sub t := by
  unfold temp_score spec_temperature_sub
  norm_num

theorem latency_score_eq_spec (l : ℚ) : latency_score l = spec_latency_sub l := by
  unfold latency_score spec_latency_sub
  norm_num

theorem battery_score_bounds (b : ℚ) (hb : 0 ≤ b) :
    0 ≤ battery_score b ∧ battery_score b ≤ 100 := by
  unfold battery_score
  split_ifs with h1 h2
  · norm_num
  · constructor <;> nlinarith
  · constructor <;> nlinarith

theorem cpu_score_bounds (c : ℚ) (hc : 0 ≤ c) :
    0 ≤ cpu_score c ∧ cpu_score c ≤ 100 := by
  unfold cpu_score
  refine ⟨le_max_left 0 _, max_le (by norm_num) (by linarith)⟩

theorem memory_score_bounds (m : ℚ) (hm : 0 ≤ m) :
    0 ≤ memory_score m ∧ memory_score m ≤ 100 := by
  unfold memory_score
  refine ⟨le_max_left 0 _, max_le (by norm_num) (by linarith)⟩

theorem temp_score_bounds (t : ℚ) : 0 ≤ temp_score t ∧ temp_score t ≤ 100 := by
  unfold temp_score
  split_ifs with h1 h2
  · norm_num
  · constructor <;> nlinarith
  · refine ⟨le_max_left 0 _, max_le (by norm_num) (by nlinarith)⟩

theorem latency_score_bounds (l : ℚ) : 0 ≤ latency_score l ∧ latency_score l ≤ 100 := by
  unfold latency_score
  split_ifs with h1 h2
  · norm_num
  · constructor <;> nlinarith
  · refine ⟨le_max_left 0 _, max_le (by norm_num) (by nlinarith)⟩

/-- C6 (amended): for every input — negative readings included — the
computed health score equals the spec's weighted sum 0.30 battery +
0.20 cpu + 0.20 memory + 0.15 temperature + 0.15 latency over the spec's
piecewise-linear sub-scores; and whenever the battery, CPU and memory
readings are nonnegative, the score lies in the interval from 0 to 100
(the temperature and latency sub-scores are clipped for all inputs). -/
theorem c6_health_score_weighted_sum (b c m t l : ℚ) :
    calculate_health_score b c m t l = spec_health_score b c m t l ∧
    (0 ≤ b → 0 ≤ c → 0 ≤ m →
      0 ≤ calculate_health_score b c m t l ∧
      calculate_health_score b c m t l ≤ 100) := by
  constructor
  · unfold calculate_health_score spec_health_score spec_cpu_sub spec_memory_sub
      cpu_score memory_score
    rw [battery_score_eq_spec, temp_score_eq_spec, latency_score_eq_spec]
    norm_num
  · intro hb hc hm
    obtain ⟨b0, b1⟩ := battery_score_bounds b hb
    obtain ⟨c0, c1⟩ := cpu_score_bounds c hc
    obtain ⟨m0, m1⟩ := memory_score_bounds m hm
    obtain ⟨t0, t1⟩ := temp_score_bounds t
    obtain ⟨l0, l1⟩ := latency_score_bounds l
    constructor <;> unfold calculate_health_score <;> nlinarith

/-- Witness for C6 (amended): the equality instantiated at the negative
battery reading minus 1000, where no hypothesis holds, and the full
conjunction at the all-zero reading with the nonnegativity hypotheses
discharged. -/
theorem c6_health_score_weighted_sum_witness :
    calculate_health_score (-1000) 0 0 0 0 = spec_health_score (-1000) 0 0 0 0 ∧
    calculate_health_score 0 0 0 0 0 = spec_health_score 0 0 0 0 0 ∧
    0 ≤ calculate_health_score 0 0 0 0 0 ∧
    calculate_health_score 0 0 0 0 0 ≤ 100 :=
  ⟨(c6_health_score_weighted_sum (-1000) 0 0 0 0).1,
    (c6_health_score_weighted_sum 0 0 0 0 0).1,
    (c6_health_score_weighted_sum 0 0 0 0 0).2 (by norm_num) (by norm_num) (by norm_num)⟩

/-- Counterexample for C6 as stated: for the metrics input with
battery_level equal to minus 1000 (and the other metrics 0) the computed
health score is minus 680, which is outside the claimed interval. -/
theorem c6_counterexample :
    calculate_health_score (-1000) 0 0 0 0 = -680 ∧
    calculate_health_score (-1000) 0 0 0 0 < 0 := by
  constructor <;>
    norm_num [calculate_health_score, battery_score, cpu_score, memory_score,
      temp_score, latency_score]

/- Claim C8: two-tier retry structure of the agent connection loop. -/

theorem connect_websocket_depends_on_first_five (o1 o2 : Nat → Bool)
    (h : ∀ i, i < 5 → o1 i = o2 i) : connect_websocket o1 = connect_websocket o2 := by
  unfold connect_websocket
  simp only [connectGo]
  rw [h 0 (by norm_num), h 1 (by norm_num), h 2 (by norm_num), h 3 (by norm_num),
    h 4 (by norm_num)]

theorem connect_websocket_backoff (outcomes : Nat → Bool) :
    (connect_websocket outcomes).2 <+: [5, 10, 20, 40] := by
  unfold connect_websocket
  by_cases h0 : outcomes 0 <;> by_cases h1 : outcomes 1 <;> by_cases h2 : outcomes 2 <;>
    by_cases h3 : outcomes 3 <;> by_cases h4 : outcomes 4 <;>
    simp only [connectGo, h0, h1, h2, h3, h4] <;> decide

theorem outerRun_no_exit (connects : Nat → Nat → Bool) (rt rf : Nat → Bool)
    (h : ∀ j, rt j = true) :
    ∀ fuel i, (outerRun connects rt rf fuel i).2 = false := by
  intro fuel
  induction fuel with
  | zero => intro i; simp [outerRun]
  | succ f ih =>
    intro i
    simp only [outerRun, h i, if_true]
    exact ih (i + 1)

/-- C8 (amended): the inner connect phase makes at most 5 attempts (its
result depends only on the first five attempt outcomes) and its backoff
sleeps form a prefix of 5, 10, 20, 40 seconds (all four being slept when
every attempt fails); the outer loop never exits while the agent is intended
to run; the inter-iteration wait is 5 seconds after a disconnection but 10
seconds plus the 5-second reconnect wait (15 seconds in total) after an
exhausted inner connect phase. -/
theorem c8_retry_structure :
    (∀ o1 o2 : Nat → Bool, (∀ i, i < 5 → o1 i = o2 i) →
      connect_websocket o1 = connect_websocket o2) ∧
    (∀ outcomes, (connect_websocket outcomes).2 <+: [5, 10, 20, 40]) ∧
    connect_websocket (fun _ => false) = (false, [5, 10, 20, 40]) ∧
    (∀ (connects : Nat → Nat → Bool) (rt rf : Nat → Bool), (∀ j, rt j = true) →
      ∀ fuel i, (outerRun connects rt rf fuel i).2 = false) ∧
    reconnectDelays true true = [5] ∧
    reconnectDelays false true = [10, 5] := by
  refine ⟨connect_websocket_depends_on_first_five, connect_websocket_backoff, ?_,
    outerRun_no_exit, rfl, rfl⟩
  rfl

/-- Witness for C8 (amended): a loop whose connect attempts all fail is still
running after three observed outer iterations, and the first iteration sleeps
the four backoff delays, the failed-connect 10 seconds and the reconnect 5
seconds. -/
theorem c8_retry_structure_witness :
    (outerRun (fun _ _ => false) (fun _ => true) (fun _ => true) 3 0).2 = false ∧
    connect_websocket (fun _ => false) = (false, [5, 10, 20, 40]) :=
  ⟨c8_retry_structure.2.2.2.1 (fun _ _ => false) (fun _ => true) (fun _ => true)
      (fun _ => rfl) 3 0,
    c8_retry_structure.2.2.1⟩

/-- Counterexample for C8 as stated: after an exhausted inner connect phase
the loop does not wait the claimed fixed 5 seconds; it waits 10 seconds and
then the 5-second reconnect delay, as the first observed iteration of a run
with all connect attempts failing shows. -/
theorem c8_counterexample :
    reconnectDelays false true = [10, 5] ∧
    reconnectDelays false true ≠ [5] ∧
    outerRun (fun _ _ => false) (fun _ => true) (fun _ => true) 1 0 =
      ([5, 10, 20, 40, 10, 5], false) := by
  refine ⟨rfl, by decide, ?_⟩
  rfl

/- Command-service lemmas shared by the command-related claims. -/

theorem ucs_of_lookup_none (now : Int) (cid : Nat) (s : String)
    (rdo : Option (List (String × String))) (err : Option String)
    (st : CommandServiceState) (h : dlookup st.pending_commands cid = none) :
    update_command_status now cid s rdo err st = st := by
  simp [update_command_status, h]

theorem ucs_pending_eq (now : Int) (cid : Nat) (s : String)
    (rdo : Option (List (String × String))) (err : Option String)
    (st : CommandServiceState) (cmd : CommandRecord)
    (h : dlookup st.pending_commands cid = some cmd) :
    (update_command_status now cid s rdo err st).pending_commands =
      dinsert st.pending_commands cid
        { cmd with status := s, error := if strTruthy err then err else cmd.error } := by
  simp [update_command_status, h]

theorem hasCmd_ucs (now : Int) (cid : Nat) (s : String)
    (rdo : Option (List (String × String))) (err : Option String)
    (st : CommandServiceState) (rid : String) (c : Nat)
    (h : HasCmd st rid c) : HasCmd (update_command_status now cid s rdo err st) rid c := by
  unfold update_command_status
  cases hp : dlookup st.pending_commands cid with
  | none => exact h
  | some cmd =>
    unfold HasCmd at h ⊢
    simp only
    cases hh : dlookup st.command_history cmd.robot_id with
    | none => exact h
    | some hist =>
      by_cases hr : rid = cmd.robot_id
      · subst hr
        rw [dlookup_dinsert, if_pos rfl]
        simp only [Option.getD_some]
        rw [updateFirst_map_of_fix]
        · rw [hh] at h
          simpa using h
        · intro x
          rfl
      · rw [dlookup_dinsert, if_neg hr]
        exact h

theorem nodup_ucs (now : Int) (cid : Nat) (s : String)
    (rdo : Option (List (String × String))) (err : Option String)
    (st : CommandServiceState) (h : NoDupKeys st.pending_commands) :
    NoDupKeys (update_command_status now cid s rdo err st).pending_commands := by
  unfold update_command_status
  cases hp : dlookup st.pending_commands cid with
  | none => exact h
  | some cmd => exact nodupKeys_dinsert _ _ _ h

theorem send_core_unfold (now : Int) (cid : Nat) (rid a : String)
    (p : List (String × String)) (ok : Bool) (st : CommandServiceState) :
    (send_command_core now cid rid a p ok st).2 =
      update_command_status now cid (if ok then "sent" else "failed") none
        (if ok then none else some "WebSocket send failed")
        (sendStage1 now cid rid a p st) := by
  cases ok <;> rfl

theorem sendStage1_pending_self (now : Int) (cid : Nat) (rid a : String)
    (p : List (String × String)) (st : CommandServiceState) :
    dlookup (sendStage1 now cid rid a p st).pending_commands cid =
      some (pendingRecord now cid rid a p) := by
  unfold sendStage1
  rw [dlookup_dinsert, if_pos rfl]

theorem sendStage1_history_self (now : Int) (cid : Nat) (rid a : String)
    (p : List (String × String)) (st : CommandServiceState) :
    dlookup (sendStage1 now cid rid a p st).command_history rid =
      some ((dlookup st.command_history rid).getD [] ++ [pendingRecord now cid rid a p]) := by
  unfold sendStage1
  rw [dlookup_dinsert, if_pos rfl]

theorem send_core_pending (now : Int) (cid : Nat) (rid a : String)
    (p : List (String × String)) (ok : Bool) (st : CommandServiceState) :
    dlookup ((send_command_core now cid rid a p ok st).2).pending_commands cid =
      some (sentRecord now cid rid a p ok) := by
  rw [send_core_unfold,
    ucs_pending_eq _ _ _ _ _ _ _ (sendStage1_pending_self now cid rid a p st)]
  rw [dlookup_dinsert, if_pos rfl]
  cases ok <;> simp [sentRecord, pendingRecord, strTruthy]

theorem send_core_pending_other (now : Int) (cid : Nat) (rid a : String)
    (p : List (String × String)) (ok : Bool) (st : CommandServiceState)
    (cid2 : Nat) (h : cid2 ≠ cid) :
    dlookup ((send_command_core now cid rid a p ok st).2).pending_commands cid2 =
      dlookup st.pending_commands cid2 := by
  rw [send_core_unfold,
    ucs_pending_eq _ _ _ _ _ _ _ (sendStage1_pending_self now cid rid a p st)]
  rw [dlookup_dinsert, if_neg h]
  unfold sendStage1
  simp only
  rw [dlookup_dinsert, if_neg h]

theorem send_core_nodup (now : Int) (cid : Nat) (rid a : String)
    (p : List (String × String)) (ok : Bool) (st : CommandServiceState)
    (h : NoDupKeys st.pending_commands) :
    NoDupKeys ((send_command_core now cid rid a p ok st).2).pending_commands := by
  rw [send_core_unfold]
  exact nodup_ucs _ _ _ _ _ _ (nodupKeys_dinsert _ _ _ h)

theorem ucs_history_stage1 (now now2 : Int) (cid : Nat) (s : String)
    (rdo : Option (List (String × String))) (err : Option String)
    (st0 st : CommandServiceState) (rid a : String) (p : List (String × String))
    (hst : st = sendStage1 now cid rid a p st0) :
    (update_command_status now2 cid s rdo err st).command_history =
      dinsert st.command_history rid
        (updateFirst (fun c => c.command_id == cid)
          (fun c =>
            { c with
              status := s
              completed_at := some now2
              response := if respTruthy rdo then rdo else c.response
              error := if strTruthy err then err else c.error })
          ((dlookup st0.command_history rid).getD [] ++ [pendingRecord now cid rid a p])) := by
  subst hst
  unfold update_command_status
  rw [sendStage1_pending_self]
  simp only
  rw [show (pendingRecord now cid rid a p).robot_id = rid from rfl,
    sendStage1_history_self]

theorem send_core_history_map (now : Int) (cid : Nat) (rid a : String)
    (p : List (String × String)) (ok : Bool) (st : CommandServiceState) :
    ((dlookup ((send_command_core now cid rid a p ok st).2).command_history rid).getD []).map
        CommandRecord.command_id =
      ((dlookup st.command_history rid).getD []).map CommandRecord.command_id ++ [cid] := by
  rw [send_core_unfold, ucs_history_stage1 now now cid _ _ _ st _ rid a p rfl]
  rw [dlookup_dinsert, if_pos rfl]
  simp only [Option.getD_some]
  rw [updateFirst_map_of_fix]
  · simp [pendingRecord]
  · intro x
    rfl

theorem send_core_history_other (now : Int) (cid : Nat) (rid a : String)
    (p : List (String × String)) (ok : Bool) (st : CommandServiceState)
    (rid2 : String) (h : rid2 ≠ rid) :
    dlookup ((send_command_core now cid rid a p ok st).2).command_history rid2 =
      dlookup st.command_history rid2 := by
  rw [send_core_unfold, ucs_history_stage1 now now cid _ _ _ st _ rid a p rfl]
  rw [dlookup_dinsert, if_neg h]
  unfold sendStage1
  simp only
  rw [dlookup_dinsert, if_neg h]

/- Claim C10: the pending index is always a subset of recorded history. -/

theorem hasCmd_send (now : Int) (cid : Nat) (rid a : String)
    (p : List (String × String)) (ok : Bool) (st : CommandServiceState)
    (rid2 : String) (c : Nat) (h : HasCmd st rid2 c) :
    HasCmd ((send_command_core now cid rid a p ok st).2) rid2 c := by
  unfold HasCmd at h ⊢
  by_cases hr : rid2 = rid
  · subst hr
    rw [send_core_history_map]
    exact List.mem_append_left _ h
  · rw [send_core_history_other _ _ _ _ _ _ _ _ hr]
    exact h

theorem cmdInv_send (now : Int) (cid : Nat) (rid a : String)
    (p : List (String × String)) (ok : Bool) (st : CommandServiceState)
    (h : CmdInv st) : CmdInv ((send_command_core now cid rid a p ok st).2) := by
  obtain ⟨hn, hp⟩ := h
  refine ⟨send_core_nodup _ _ _ _ _ _ _ hn, ?_⟩
  intro cid2 cmd2 hl
  by_cases hc : cid2 = cid
  · subst hc
    rw [send_core_pending] at hl
    obtain rfl : sentRecord now cid2 rid a p ok = cmd2 := by
      injection hl
    have : HasCmd ((send_command_core now cid2 rid a p ok st).2) rid cid2 := by
      unfold HasCmd
      rw [send_core_history_map]
      exact List.mem_append_right _ (by simp)
    have hr : (sentRecord now cid2 rid a p ok).robot_id = rid := by
      cases ok <;> rfl
    rw [hr]
    unfold HasCmd at this
    exact List.mem_map.mp this
  · rw [send_core_pending_other _ _ _ _ _ _ _ _ hc] at hl
    have h0 := hp cid2 cmd2 hl
    have h1 : HasCmd st cmd2.robot_id cid2 := by
      unfold HasCmd
      exact List.mem_map.mpr h0
    have h2 := hasCmd_send now cid rid a p ok st cmd2.robot_id cid2 h1
    unfold HasCmd at h2
    exact List.mem_map.mp h2

theorem cmdInv_respond (now : Int) (cid : Nat) (rd : List (String × String))
    (st : CommandServiceState) (h : CmdInv st) :
    CmdInv (handle_command_response now cid rd st) := by
  obtain ⟨hn, hp⟩ := h
  unfold handle_command_response
  cases hl : dlookup st.pending_commands cid with
  | none => exact ⟨hn, hp⟩
  | some cmd =>
    simp only
    have hpend := ucs_pending_eq now cid ((dlookup rd "status").getD "completed")
      (some rd) (dlookup rd "error") st cmd hl
    have hnod2 : NoDupKeys (update_command_status now cid
        ((dlookup rd "status").getD "completed") (some rd) (dlookup rd "error")
        st).pending_commands := nodup_ucs _ _ _ _ _ _ hn
    have hinv2 : PendingInHistory (update_command_status now cid
        ((dlookup rd "status").getD "completed") (some rd) (dlookup rd "error") st) := by
      intro cid2 cmd2 hl2
      rw [hpend, dlookup_dinsert] at hl2
      by_cases hc : cid2 = cid
      · rw [if_pos hc] at hl2
        subst hc
        obtain rfl : _ = cmd2 := by injection hl2
        have h0 := hp cid2 cmd hl
        have h1 : HasCmd st cmd.robot_id cid2 := List.mem_map.mpr h0
        have h2 := hasCmd_ucs now cid2 ((dlookup rd "status").getD "completed")
          (some rd) (dlookup rd "error") st cmd.robot_id cid2 h1
        exact List.mem_map.mp h2
      · rw [if_neg hc] at hl2
        have h0 := hp cid2 cmd2 hl2
        have h1 : HasCmd st cmd2.robot_id cid2 := List.mem_map.mpr h0
        have h2 := hasCmd_ucs now cid ((dlookup rd "status").getD "completed")
          (some rd) (dlookup rd "error") st cmd2.robot_id cid2 h1
        exact List.mem_map.mp h2
    split
    · refine ⟨nodupKeys_derase _ _ hnod2, ?_⟩
      intro cid2 cmd2 hl2
      simp only at hl2
      by_cases hc : cid2 = cid
      · subst hc
        rw [dlookup_derase_self _ _ hnod2] at hl2
        cases hl2
      · rw [dlookup_derase_ne _ _ _ hc] at hl2
        exact hinv2 cid2 cmd2 hl2
    · exact ⟨hnod2, hinv2⟩

theorem cmdInv_cancel (now : Int) (cid : Nat) (st : CommandServiceState)
    (h : CmdInv st) : CmdInv ((cancel_command now cid st).2) := by
  obtain ⟨hn, hp⟩ := h
  unfold cancel_command
  cases hl : dlookup st.pending_commands cid with
  | none => exact ⟨hn, hp⟩
  | some cmd =>
    simp only
    have hnod2 : NoDupKeys (update_command_status now cid "cancelled" none none
        st).pending_commands := nodup_ucs _ _ _ _ _ _ hn
    have hinv2 : PendingInHistory (update_command_status now cid "cancelled" none none st) := by
      intro cid2 cmd2 hl2
      rw [ucs_pending_eq now cid "cancelled" none none st cmd hl, dlookup_dinsert] at hl2
      by_cases hc : cid2 = cid
      · rw [if_pos hc] at hl2
        subst hc
        obtain rfl : _ = cmd2 := by injection hl2
        have h0 := hp cid2 cmd hl
        have h1 : HasCmd st cmd.robot_id cid2 := List.mem_map.mpr h0
        have h2 := hasCmd_ucs now cid2 "cancelled" none none st cmd.robot_id cid2 h1
        exact List.mem_map.mp h2
      · rw [if_neg hc] at hl2
        have h0 := hp cid2 cmd2 hl2
        have h1 : HasCmd st cmd2.robot_id cid2 := List.mem_map.mpr h0
        have h2 := hasCmd_ucs now cid "cancelled" none none st cmd2.robot_id cid2 h1
        exact List.mem_map.mp h2
    refine ⟨nodupKeys_derase _ _ hnod2, ?_⟩
    intro cid2 cmd2 hl2
    simp only at hl2
    by_cases hc : cid2 = cid
    · subst hc
      rw [dlookup_derase_self _ _ hnod2] at hl2
      cases hl2
    · rw [dlookup_derase_ne _ _ _ hc] at hl2
      exact hinv2 cid2 cmd2 hl2

theorem cmdInv_apply (st : CommandServiceState) (op : CmdOp) (h : CmdInv st) :
    CmdInv (applyCmdOp st op) := by
  cases op with
  | send now cid rid a p ok => exact cmdInv_send now cid rid a p ok st h
  | respond now cid rd => exact cmdInv_respond now cid rd st h
  | cancel now cid => exact cmdInv_cancel now cid st h

theorem cmdInv_runOps (ops : List CmdOp) :
    ∀ st, CmdInv st → CmdInv (runCmdOps ops st) := by
  induction ops with
  | nil => intro st h; exact h
  | cons op rest ih =>
    intro st h
    exact ih (applyCmdOp st op) (cmdInv_apply st op h)

/-- C10: in every state reachable by any sequence of dispatch, response and
cancel operations from the initial command-service state, every command id
in the pending index also appears as a history entry with the same id under
its robot; the pending index is a subset of recorded history. -/
theorem c10_pending_subset_of_history (ops : List CmdOp) :
    PendingInHistory (runCmdOps ops initCommandServiceState) := by
  have h0 : CmdInv initCommandServiceState := by
    constructor
    · simp [NoDupKeys, initCommandServiceState]
    · intro cid cmd hl
      simp [initCommandServiceState, dlookup] at hl
  exact (cmdInv_runOps ops initCommandServiceState h0).2

/-- Witness for C10: after one delivered dispatch with id 7 for robot r, the
pending entry 7 is matched by a history entry of robot r. -/
theorem c10_pending_subset_of_history_witness :
    ∃ e ∈ (dlookup (runCmdOps [CmdOp.send 0 7 "r" "start" [] true]
        initCommandServiceState).command_history
        (sentRecord 0 7 "r" "start" [] true).robot_id).getD [],
      e.command_id = 7 :=
  c10_pending_subset_of_history [CmdOp.send 0 7 "r" "start" [] true] 7
    (sentRecord 0 7 "r" "start" [] true) (by decide)

/- Claim C5: per-robot history growth on dispatch. -/

/-- C5 (amended): every dispatch appends exactly one entry to the per-robot
command history, at any history size — nothing is ever evicted, so the
history is unbounded rather than capped at 1,000 entries — and the dispatch
also inserts the record into the separate pending-lookup index. -/
theorem c5_history_growth (now : Int) (cid : Nat) (rid a : String)
    (p : List (String × String)) (ok : Bool) (st : CommandServiceState) :
    historyLength ((send_command_core now cid rid a p ok st).2) rid =
      historyLength st rid + 1 ∧
    dlookup ((send_command_core now cid rid a p ok st).2).pending_commands cid =
      some (sentRecord now cid rid a p ok) := by
  constructor
  · have h := congrArg List.length (send_core_history_map now cid rid a p ok st)
    simpa [historyLength, List.length_map, List.length_append] using h
  · exact send_core_pending now cid rid a p ok st

theorem dispatchN_length (n : Nat) :
    ∀ st, historyLength (dispatchN n st) "r1" = historyLength st "r1" + n := by
  induction n with
  | zero => intro st; simp [dispatchN]
  | succ k ih =>
    intro st
    unfold dispatchN
    rw [ih]
    have h2 : historyLength ((send_command_core 0 k "r1" "start" [] true st).2) "r1" =
        historyLength st "r1" + 1 := by
      have h := congrArg List.length (send_core_history_map 0 k "r1" "start" [] true st)
      simpa [historyLength, List.length_map, List.length_append] using h
    omega

/-- Counterexample for C5 as stated: after 1,001 dispatches to robot r1 the
stored history holds 1,001 entries, exceeding the claimed 1,000-entry bound;
no eviction takes place. -/
theorem c5_counterexample :
    historyLength (dispatchN 1001 initCommandServiceState) "r1" = 1001 ∧
    1000 < historyLength (dispatchN 1001 initCommandServiceState) "r1" := by
  have h := dispatchN_length 1001 initCommandServiceState
  have h0 : historyLength initCommandServiceState "r1" = 0 := by
    simp [historyLength, initCommandServiceState, dlookup]
  constructor <;> omega

/- Claim C2: response-driven status transitions. -/

/-- Counterexample for C2 as stated: a record in status sent transitions to
the non-terminal status running when handle_command_response carries that
status, so pending and sent records do not transition only to completed,
failed or cancelled. -/
theorem c2_counterexample :
    (dlookup ((send_command_core 0 7 "r1" "start" [] true
        initCommandServiceState).2).pending_commands 7).map CommandRecord.status =
      some "sent" ∧
    (dlookup (handle_command_response 1 7 [("status", "running")]
        ((send_command_core 0 7 "r1" "start" [] true
          initCommandServiceState).2)).pending_commands 7).map CommandRecord.status =
      some "running" ∧
    ((dlookup (handle_command_response 1 7 [("status", "running")]
        ((send_command_core 0 7 "r1" "start" [] true
          initCommandServiceState).2)).command_history "r1").getD []).map
        (fun c => (c.command_id, c.status)) = [(7, "running")] ∧
    ("running" ≠ "completed" ∧ "running" ≠ "failed" ∧ "running" ≠ "cancelled") := by
  refine ⟨by decide, by decide, by decide, by decide, by decide, by decide⟩

/-- C2 (amended): handle_command_response sets a pending record's status to
whatever status the response carries (default completed), terminal or not;
it evicts the record from the pending index exactly when that status is
completed or failed; cancel_command evicts with status cancelled; and a call
for an id absent from the pending index (in particular any id already
evicted) leaves the whole service state unchanged. -/
theorem c2_response_status_rules (now : Int) (cid : Nat)
    (rd : List (String × String)) (st : CommandServiceState) :
    (dlookup st.pending_commands cid = none →
      handle_command_response now cid rd st = st) ∧
    (∀ cmd, NoDupKeys st.pending_commands →
      dlookup st.pending_commands cid = some cmd →
      (((dlookup rd "status").getD "completed" = "completed" ∨
        (dlookup rd "status").getD "completed" = "failed") →
        dlookup (handle_command_response now cid rd st).pending_commands cid = none) ∧
      (((dlookup rd "status").getD "completed" ≠ "completed" ∧
        (dlookup rd "status").getD "completed" ≠ "failed") →
        (dlookup (handle_command_response now cid rd st).pending_commands cid).map
          CommandRecord.status = some ((dlookup rd "status").getD "completed"))) ∧
    (∀ cmd, NoDupKeys st.pending_commands →
      dlookup st.pending_commands cid = some cmd →
      (cancel_command now cid st).1 = true ∧
      dlookup ((cancel_command now cid st).2).pending_commands cid = none) := by
  refine ⟨?_, ?_, ?_⟩
  · intro h
    simp [handle_command_response, h]
  · intro cmd hn hl
    simp only [handle_command_response, hl]
    constructor
    · intro hterm
      have hb : ((dlookup rd "status").getD "completed" == "completed" ||
          (dlookup rd "status").getD "completed" == "failed") = true := by
        rcases hterm with h | h <;> simp [h]
      rw [hb, if_pos rfl]
      show dlookup (derase (update_command_status now cid
        ((dlookup rd "status").getD "completed") (some rd) (dlookup rd "error")
        st).pending_commands cid) cid = none
      rw [ucs_pending_eq now cid _ (some rd) (dlookup rd "error") st cmd hl]
      exact dlookup_derase_self _ _ (nodupKeys_dinsert _ _ _ hn)
    · intro hnon
      have hb : ((dlookup rd "status").getD "completed" == "completed" ||
          (dlookup rd "status").getD "completed" == "failed") = false := by
        simp [hnon.1, hnon.2]
      rw [hb, if_neg Bool.false_ne_true]
      show (dlookup (update_command_status now cid
        ((dlookup rd "status").getD "completed") (some rd) (dlookup rd "error")
        st).pending_commands cid).map CommandRecord.status =
        some ((dlookup rd "status").getD "completed")
      rw [ucs_pending_eq now cid _ (some rd) (dlookup rd "error") st cmd hl]
      rw [dlookup_dinsert, if_pos rfl]
      rfl
  · intro cmd hn hl
    simp only [cancel_command, hl]
    refine ⟨trivial, ?_⟩
    show dlookup (derase (update_command_status now cid "cancelled" none none
      st).pending_commands cid) cid = none
    rw [ucs_pending_eq now cid "cancelled" none none st cmd hl]
    exact dlookup_derase_self _ _ (nodupKeys_dinsert _ _ _ hn)

/-- Witness for C2 (amended): in the state after a delivered dispatch with
id 7, a response carrying status completed evicts the pending entry. -/
theorem c2_response_status_rules_witness :
    dlookup (handle_command_response 1 7 [("status", "completed")]
      ((send_command_core 0 7 "r1" "start" [] true
        initCommandServiceState).2)).pending_commands 7 = none :=
  ((c2_response_status_rules 1 7 [("status", "completed")]
      ((send_command_core 0 7 "r1" "start" [] true initCommandServiceState).2)).2.1
    (sentRecord 0 7 "r1" "start" [] true) (by unfold NoDupKeys; decide) (by decide)).1
    (Or.inl (by decide))

/- Claim C3: dispatch delivery outcomes. -/

theorem updateFirst_finds {α : Type} (p : α → Bool) (f : α → α) (l : List α)
    (hx : ∃ x ∈ l, p x = true) :
    ∃ x ∈ l, p x = true ∧ f x ∈ updateFirst p f l := by
  induction l with
  | nil =>
    obtain ⟨x, hxm, _⟩ := hx
    cases hxm
  | cons y t ih =>
    by_cases hp : p y = true
    · exact ⟨y, List.mem_cons_self y t, hp, by simp [updateFirst, hp]⟩
    · obtain ⟨x, hxm, hpx⟩ := hx
      rcases List.mem_cons.mp hxm with rfl | hxt
      · exact absurd hpx hp
      · obtain ⟨x2, hx2, hpx2, hmem⟩ := ih ⟨x, hxt, hpx⟩
        refine ⟨x2, List.mem_cons_of_mem _ hx2, hpx2, ?_⟩
        simp only [updateFirst, hp, if_false]
        exact List.mem_cons_of_mem _ hmem

theorem send_core_history_entry (now : Int) (cid : Nat) (rid a : String)
    (p : List (String × String)) (ok : Bool) (st : CommandServiceState) :
    ∃ e ∈ (dlookup ((send_command_core now cid rid a p ok st).2).command_history rid).getD [],
      e.command_id = cid ∧ e.status = (if ok then "sent" else "failed") ∧
      (ok = false → e.error = some "WebSocket send failed") := by
  rw [send_core_unfold, ucs_history_stage1 now now cid _ _ _ st _ rid a p rfl]
  rw [dlookup_dinsert, if_pos rfl]
  simp only [Option.getD_some]
  have hx : ∃ x ∈ (dlookup st.command_history rid).getD [] ++ [pendingRecord now cid rid a p],
      (x.command_id == cid) = true := by
    refine ⟨pendingRecord now cid rid a p, List.mem_append_right _ (by simp), ?_⟩
    simp [pendingRecord]
  obtain ⟨x, hxm, hpx, hmem⟩ := updateFirst_finds _ _ _ hx
  refine ⟨_, hmem, ?_, ?_, ?_⟩
  · simpa using hpx
  · cases ok <;> simp [strTruthy]
  · intro hok
    subst hok
    simp [strTruthy]

theorem send_core_fst (now : Int) (cid : Nat) (rid a : String)
    (p : List (String × String)) (ok : Bool) (st : CommandServiceState) :
    (send_command_core now cid rid a p ok st).1 =
      if ok then Except.ok (pendingRecord now cid rid a p)
      else Except.error ("Failed to send command to robot " ++ rid) := by
  cases ok <;> rfl

theorem send_to_robot_eq (now : Int) (cid : Nat) (rid a : String)
    (p : List (String × String)) (ws : ConnectionManagerState) (st : CommandServiceState) :
    send_command_to_robot now cid rid a p ws st =
      ((send_command_core now cid rid a p (send_to_agent rid ws).1 st).1,
        (send_command_core now cid rid a p (send_to_agent rid ws).1 st).2,
        (send_to_agent rid ws).2) := rfl

/-- Counterexample for C3 as stated: with a live connection the dispatch
succeeds and the stored record transitions to sent, but the record returned
to the caller still carries status pending, not sent. -/
theorem c3_counterexample :
    exceptStatus (send_command_to_robot 0 7 "r1" "start" [] wsAlive
        initCommandServiceState).1 = some "pending" ∧
    (dlookup (send_command_to_robot 0 7 "r1" "start" [] wsAlive
        initCommandServiceState).2.1.pending_commands 7).map CommandRecord.status =
      some "sent" ∧
    ((dlookup (send_command_to_robot 0 7 "r1" "start" [] wsAlive
        initCommandServiceState).2.1.command_history "r1").getD []).map
        CommandRecord.status = ["sent"] ∧
    exceptStatus (send_command_to_robot 0 7 "r1" "start" [] wsAlive
        initCommandServiceState).1 ≠ some "sent" := by
  refine ⟨by decide, by decide, by decide, by decide⟩

/-- C3 (amended): if the transport send fails, the stored record (pending
index and history) transitions directly to failed with the delivery-error
reason attached, the call raises the failure to the caller, and no further
transport interaction happens beyond the single send attempt; if the send
succeeds, the stored record transitions to sent and the call returns,
without waiting for completion, the snapshot taken at creation time, which
still carries status pending. -/
theorem c3_dispatch_paths (now : Int) (cid : Nat) (rid a : String)
    (p : List (String × String)) (ws : ConnectionManagerState)
    (st : CommandServiceState) :
    ((send_to_agent rid ws).1 = false →
      exceptError (send_command_to_robot now cid rid a p ws st).1 =
        some ("Failed to send command to robot " ++ rid) ∧
      dlookup (send_command_to_robot now cid rid a p ws st).2.1.pending_commands cid =
        some (sentRecord now cid rid a p false) ∧
      (∃ e ∈ (dlookup (send_command_to_robot now cid rid a p
            ws st).2.1.command_history rid).getD [],
        e.command_id = cid ∧ e.status = "failed" ∧
          e.error = some "WebSocket send failed") ∧
      (send_command_to_robot now cid rid a p ws st).2.2 = (send_to_agent rid ws).2) ∧
    ((send_to_agent rid ws).1 = true →
      (send_command_to_robot now cid rid a p ws st).1 =
        Except.ok (pendingRecord now cid rid a p) ∧
      exceptStatus (send_command_to_robot now cid rid a p ws st).1 = some "pending" ∧
      dlookup (send_command_to_robot now cid rid a p ws st).2.1.pending_commands cid =
        some (sentRecord now cid rid a p true) ∧
      (∃ e ∈ (dlookup (send_command_to_robot now cid rid a p
            ws st).2.1.command_history rid).getD [],
        e.command_id = cid ∧ e.status = "sent") ∧
      (send_command_to_robot now cid rid a p ws st).2.2 = (send_to_agent rid ws).2) := by
  constructor
  · intro h
    rw [send_to_robot_eq, h]
    refine ⟨?_, ?_, ?_, rfl⟩
    · rw [send_core_fst]
      rfl
    · exact send_core_pending now cid rid a p false st
    · have he := send_core_history_entry now cid rid a p false st
      obtain ⟨e, hem, h1, h2, h3⟩ := he
      exact ⟨e, hem, h1, by simpa using h2, h3 rfl⟩
  · intro h
    rw [send_to_robot_eq, h]
    refine ⟨?_, ?_, ?_, ?_, rfl⟩
    · rw [send_core_fst]
      rfl
    · rw [send_core_fst]
      rfl
    · exact send_core_pending now cid rid a p true st
    · have he := send_core_history_entry now cid rid a p true st
      obtain ⟨e, hem, h1, h2, _⟩ := he
      exact ⟨e, hem, h1, by simpa using h2⟩

/-- Witness for C3 (amended): the failure branch at a transport state whose
only connection for r1 is dead. -/
theorem c3_dispatch_paths_witness :
    exceptError (send_command_to_robot 0 8 "r1" "stop" [] wsDead
        initCommandServiceState).1 =
      some ("Failed to send command to robot " ++ "r1") ∧
    dlookup (send_command_to_robot 0 8 "r1" "stop" [] wsDead
        initCommandServiceState).2.1.pending_commands 8 =
      some (sentRecord 0 8 "r1" "stop" [] false) ∧
    (∃ e ∈ (dlookup (send_command_to_robot 0 8 "r1" "stop" [] wsDead
          initCommandServiceState).2.1.command_history "r1").getD [],
      e.command_id = 8 ∧ e.status = "failed" ∧
        e.error = some "WebSocket send failed") ∧
    (send_command_to_robot 0 8 "r1" "stop" [] wsDead
        initCommandServiceState).2.2 = (send_to_agent "r1" wsDead).2 :=
  (c3_dispatch_paths 0 8 "r1" "stop" [] wsDead initCommandServiceState).1 (by decide)

/- Claim C4: intent-driven status at dispatch time. -/

theorem rm_send_ok_unfold (now : Int) (cid : Nat) (rid a : String)
    (p : List (String × String)) (st : RobotManagerState)
    (hs : (send_to_agent rid st.ws).1 = true) :
    rm_send_command_to_robot now cid rid a p st =
      (Except.ok (pendingRecord now cid rid a p),
        (let st1 : RobotManagerState :=
          { st with
            command_service := (send_command_core now cid rid a p true st.command_service).2
            ws := (send_to_agent rid st.ws).2 }
        if a == "start" then
          (rm_set_robot_status now rid "active" (some "person_following") st1).2
        else if a == "stop" then
          (rm_set_robot_status now rid "idle" (some "stopped") st1).2
        else if a == "restart" then
          (rm_set_robot_status now rid "restarting" (some "system_restart") st1).2
        else if a == "reboot" then
          (rm_set_robot_status now rid "rebooting" (some "system_reboot") st1).2
        else st1)) := by
  unfold rm_send_command_to_robot
  rw [send_to_robot_eq, hs, send_core_fst]
  rw [if_pos rfl]

theorem set_robot_status_fields (now : Int) (rid status a : String)
    (st : RobotRegistryState) (r : Robot)
    (hr : dlookup st.robots rid = some r) (ha : a ≠ "") :
    (dlookup ((set_robot_status now rid status (some a) st).2).robots rid).map
      (fun q => (q.status, q.current_action)) = some (status, a) := by
  have hbeq : (a == "") = false := beq_eq_false_iff_ne.mpr ha
  simp only [set_robot_status, hr, strTruthy, hbeq, Bool.not_false, if_true, Option.getD_some]
  rw [dlookup_dinsert, if_pos rfl]
  rfl

/-- C4: for a robot present in the registry, a successfully delivered start
command sets its status to active and its current action to person_following
at dispatch time (before any acknowledgment is processed), and stop, restart
and reboot likewise apply their intent statuses idle/stopped,
restarting/system_restart and rebooting/system_reboot at dispatch time. -/
theorem c4_intent_driven_status (now : Int) (cid : Nat) (rid : String)
    (p : List (String × String)) (st : RobotManagerState) (r : Robot)
    (hr : dlookup st.robot_registry.robots rid = some r)
    (hs : (send_to_agent rid st.ws).1 = true) :
    ((dlookup (rm_send_command_to_robot now cid rid "start" p
        st).2.robot_registry.robots rid).map (fun q => (q.status, q.current_action)) =
      some ("active", "person_following")) ∧
    ((dlookup (rm_send_command_to_robot now cid rid "stop" p
        st).2.robot_registry.robots rid).map (fun q => (q.status, q.current_action)) =
      some ("idle", "stopped")) ∧
    ((dlookup (rm_send_command_to_robot now cid rid "restart" p
        st).2.robot_registry.robots rid).map (fun q => (q.status, q.current_action)) =
      some ("restarting", "system_restart")) ∧
    ((dlookup (rm_send_command_to_robot now cid rid "reboot" p
        st).2.robot_registry.robots rid).map (fun q => (q.status, q.current_action)) =
      some ("rebooting", "system_reboot")) := by
  refine ⟨?_, ?_, ?_, ?_⟩ <;>
    rw [rm_send_ok_unfold _ _ _ _ _ _ hs] <;>
    simp only [rm_set_robot_status] <;>
    exact set_robot_status_fields now rid _ _ _ r hr (by decide)

/-- Witness for C4: a registered robot r1 with a live agent connection gets
the four intent statuses at dispatch time. -/
theorem c4_intent_driven_status_witness :
    (dlookup (rm_send_command_to_robot 1 7 "r1" "start" []
        c4State).2.robot_registry.robots "r1").map (fun q => (q.status, q.current_action)) =
      some ("active", "person_following") :=
  (c4_intent_driven_status 1 7 "r1" [] c4State c4Robot rfl (by decide)).1

/- Claim C1: liveness timeout versus robot status. -/

theorem dlookup_map_keyfix {α β : Type} [DecidableEq α] (m : (α × β) → (α × β))
    (hm : ∀ kv, (m kv).1 = kv.1) (l : List (α × β)) (k : α) (v : β)
    (h : dlookup l k = some v) : dlookup (l.map m) k = some (m (k, v)).2 := by
  induction l with
  | nil => cases h
  | cons kv t ih =>
    obtain ⟨k3, v3⟩ := kv
    by_cases hk : k = k3
    · subst hk
      simp only [dlookup, if_pos rfl] at h
      obtain rfl : v3 = v := by injection h
      simp only [List.map_cons, dlookup]
      rw [if_pos (hm (k, v3)).symm]
    · simp only [dlookup, if_neg hk] at h
      simp only [List.map_cons, dlookup]
      rw [if_neg (by rw [hm (k3, v3)]; exact hk)]
      exact ih h

/-- Counterexample for C1 as stated: at time 180 the agent r1 last seen at
time 0 fails the 2-minute liveness check and is marked offline, yet after
the next status read of the robot registry the paired robot's status field
is still active, not offline — the robot is even still listed among the
online robots, because the robot read only consults the robot's own
last_update and status. -/
theorem c1_counterexample :
    ((dlookup ((get_online_agents 180 staleAgentReg).2).agents "r1").map Agent.status =
      some "offline") ∧
    (get_online_agents 180 staleAgentReg).1 = [] ∧
    (get_online_robots 180 staleRobotReg).2 = staleRobotReg ∧
    ((dlookup ((get_online_robots 180 staleRobotReg).2).robots "r1").map Robot.status =
      some "active") ∧
    some "active" ≠ some "offline" ∧
    (get_online_robots 180 staleRobotReg).1.map Robot.status = ["active"] := by
  refine ⟨by decide, by decide, rfl, by decide, by decide, by decide⟩

/-- C1 (amended): when an agent's last-seen timestamp is older than the
2-minute liveness timeout, the next agent-liveness read marks the agent
itself offline and omits it from the online-agent list, but a status read of
the robot registry leaves the registry — in particular the paired robot's
status field — unchanged; the robot's status becomes offline only through
explicit agent removal, which cascades a set to offline. -/
theorem c1_stale_agent_effects (now : Int) (ast : AgentRegistryState)
    (rst : RobotRegistryState) (aid : String) (a : Agent) (r : Robot)
    (ha : dlookup ast.agents aid = some a)
    (hstale : a.last_seen ≤ now - 120)
    (hr : dlookup rst.robots aid = some r) :
    ((dlookup ((get_online_agents now ast).2).agents aid).map Agent.status =
      some "offline") ∧
    (∀ b ∈ (get_online_agents now ast).1, now - 120 < b.last_seen) ∧
    (get_online_robots now rst).2 = rst ∧
    ((dlookup ((get_online_robots now rst).2).robots aid).map Robot.status =
      some r.status) ∧
    (∀ mst : RobotManagerState, mst.agent_registry = ast → mst.robot_registry = rst →
      (dlookup ((rm_remove_agent now aid mst).2).robot_registry.robots aid).map
        Robot.status = some "offline") := by
  refine ⟨?_, ?_, rfl, ?_, ?_⟩
  · unfold get_online_agents
    simp only
    rw [dlookup_map_keyfix _ (fun kv => by split <;> rfl) _ _ _ ha]
    show Option.map Agent.status
      (some (if now - 120 < a.last_seen then (aid, a)
        else (aid, { a with status := "offline" })).2) = some "offline"
    rw [if_neg (by omega)]
    rfl
  · intro b hb
    unfold get_online_agents at hb
    simp only [List.mem_map, List.mem_filter] at hb
    obtain ⟨kv, ⟨_, hcond⟩, rfl⟩ := hb
    exact lt_of_not_ge (by simpa using hcond)
  · show (dlookup rst.robots aid).map Robot.status = some r.status
    rw [hr]
    rfl
  · intro mst h1 h2
    unfold rm_remove_agent remove_agent
    rw [h1, ha]
    simp only [rm_set_robot_status, set_robot_status, h2, hr, if_true]
    simp only [strTruthy, Bool.false_eq_true, if_false]
    rw [dlookup_dinsert, if_pos rfl]
    rfl

/-- Witness for C1 (amended): the stale pair of the counterexample scenario,
read at time 180: the robot's status field is untouched by the read. -/
theorem c1_stale_agent_effects_witness :
    (dlookup ((get_online_robots 180 staleRobotReg).2).robots "r1").map Robot.status =
      some ({ (register_robot 0 "r1" {} { robots := [] }).1 with
        status := "active" } : Robot).status :=
  (c1_stale_agent_effects 180 staleAgentReg staleRobotReg "r1"
    ((register_agent 0 "r1" {} { agents := [] }).1)
    ({ (register_robot 0 "r1" {} { robots := [] }).1 with status := "active" })
    rfl (by decide) rfl).2.2.2.1

/- Claim C7: the battery 10 / temperature 75 heartbeat scenario. -/

theorem c7_score_value : calculate_health_score 10 0 0 75 0 = 277 / 4 := by
  norm_num [calculate_health_score, battery_score, cpu_score, memory_score,
    temp_score, latency_score]

theorem c7_status_value : determine_health_status (277 / 4) = "good" := by
  norm_num [determine_health_status]

theorem c7_health_state :
    rmAfterHeartbeat.health_service =
      { health_checks := [("r1",
        { robot_id := "r1", timestamp := 0, battery_level := 10, cpu_usage := 0,
          memory_usage := 0, temperature := 75, disk_usage := 0, network_latency := 0,
          errors_count := 0, uptime := 0,
          health_score := calculate_health_score 10 0 0 75 0,
          status := determine_health_status (calculate_health_score 10 0 0 75 0) })] } :=
  rfl

theorem c7_status_good :
    (dlookup rmAfterHeartbeat.health_service.health_checks "r1").map HealthEntry.status =
      some "good" := by
  rw [c7_health_state]
  show some (determine_health_status (calculate_health_score 10 0 0 75 0)) = some "good"
  rw [c7_score_value, c7_status_value]

/-- Counterexample for C7 as stated: the heartbeat with battery_level 10 and
temperature 75 (other metrics at their defaults) yields health score 69.25
and derived health status good, which is neither critical nor poor. -/
theorem c7_counterexample :
    (dlookup rmAfterHeartbeat.health_service.health_checks "r1").map HealthEntry.status =
      some "good" ∧
    ¬((dlookup rmAfterHeartbeat.health_service.health_checks "r1").map HealthEntry.status =
        some "critical" ∨
      (dlookup rmAfterHeartbeat.health_service.health_checks "r1").map HealthEntry.status =
        some "poor") := by
  refine ⟨c7_status_good, ?_⟩
  intro h
  rcases h with h | h <;> rw [c7_status_good] at h <;> exact Option.noConfusion h
    (fun h2 => by exact absurd h2 (by decide))

/-- C7 (amended): the heartbeat with battery_level 10 and temperature 75
yields health score 69.25 and status good, and querying alerts yields
exactly a critical_battery alert and a high_temperature alert for the
robot. -/
theorem c7_heartbeat_scenario :
    (dlookup rmAfterHeartbeat.health_service.health_checks "r1").map
        (fun e => (e.status, e.health_score)) = some ("good", 277 / 4) ∧
    ((get_critical_alerts 0 rmAfterHeartbeat.health_service).1).map
        (fun al => (al.alert_type, al.robot_id)) =
      [("critical_battery", "r1"), ("high_temperature", "r1")] := by
  have hst : determine_health_status (calculate_health_score 10 0 0 75 0) = "good" := by
    rw [c7_score_value, c7_status_value]
  constructor
  · rw [c7_health_state]
    show some (determine_health_status (calculate_health_score 10 0 0 75 0),
      calculate_health_score 10 0 0 75 0) = some ("good", 277 / 4)
    rw [c7_score_value, c7_status_value]
  · rw [c7_health_state, hst]
    norm_num [get_critical_alerts, collectAlerts, get_robot_health, dlookup,
      alertsFor, List.map]

end ArtbotHub
